import Mathlib

set_option autoImplicit false

namespace Stay

/-! Shallow embedding of the token/session subsystem of the `stay_backend`
repository: `app/utils/token_storage.py`, `app/utils/file_token_storage.py`,
`app/utils/session_tokens.py`, `app/utils/startup.py`,
`app/utils/validators.py` and the `add_user` route of
`app/api/endpoints.py`. -/

/-! Timestamps are modelled as `Int` seconds on an absolute clock.
Each Python call that reads `datetime.now()` takes the current instant as an
explicit `now` parameter; the clock reads inside a single call are modelled
as the same instant. -/

/-- Payload of the JWT built by `SessionTokenService.generate_session_token`
in `app/utils/session_tokens.py`: user email, issued-at, expiry and the fixed
`type` tag. -/
structure JwtPayload where
  user_email : String
  iat : Int
  exp : Int
  type : String
  deriving Repr, DecidableEq

/-- Result of `jwt.encode`: the payload together with an HS256 signature over
it.  The opaque signature bytes are modelled as a `Nat`. -/
structure JwtToken where
  payload : JwtPayload
  sig : Nat
  deriving Repr, DecidableEq

/-- HS256 signing, abstracted: verification recomputes this same function of
the secret and the payload and compares, so any concrete function models the
MAC faithfully at this level. -/
def jwtSign (secret : String) (p : JwtPayload) : Nat :=
  (secret.length + 1) * (p.user_email.length + p.iat.natAbs + p.exp.natAbs + p.type.length + 1)

/-- Error cases of `jwt.decode` that `validate_session_token` distinguishes. -/
inductive JwtError where
  | invalidToken
  | expiredSignature
  deriving Repr, DecidableEq

/-- Model of `jwt.decode(token, secret, algorithms=["HS256"])` from PyJWT as
used in `app/utils/session_tokens.py`: the signature is verified first
(`InvalidTokenError`, which also covers token strings that fail to parse at
all), then the embedded `exp` claim; PyJWT raises `ExpiredSignatureError`
exactly when `exp <= now`. -/
def jwtDecode (secret : String) (now : Int) (tok : JwtToken) : Except JwtError JwtPayload :=
  if tok.sig ≠ jwtSign secret tok.payload then .error .invalidToken
  else if tok.payload.exp ≤ now then .error .expiredSignature
  else .ok tok.payload

/-- Model of `SessionTokenService.generate_session_token`
(`app/utils/session_tokens.py`, lines 26-59): payload carries the user email,
`iat = now`, `exp = now + expires_in` and the fixed tag `"session"`. -/
def generate_session_token (secret : String) (user_email : String) (now : Int)
    (expires_in : Int) : JwtToken :=
  let payload : JwtPayload :=
    { user_email := user_email, iat := now, exp := now + expires_in, type := "session" }
  { payload := payload, sig := jwtSign secret payload }

/-- Model of `SessionTokenService.validate_session_token`
(`app/utils/session_tokens.py`, lines 61-94): decode, then check the `type`
tag; every failure path returns the uniform `(False, None)`. -/
def validate_session_token (secret : String) (now : Int) (tok : JwtToken) :
    Bool × Option JwtPayload :=
  match jwtDecode secret now tok with
  | .ok payload => if payload.type ≠ "session" then (false, none) else (true, some payload)
  | .error _ => (false, none)

/-- Stored credential record: the dict value built by
`TokenStorage.store_token` / loaded by `FileTokenStorage`.  `Option` models a
key that may be absent (`none`) in the dict; `store_token` writes exactly the
keys `access_token`, `refresh_token`, `token_type`, `scope`, `expires_at`,
`stored_at`, so it never writes a `session_token` key, while file-loaded
records may lack the timestamp keys. -/
structure Record where
  access_token : Option String
  refresh_token : Option String
  token_type : String
  scope : Option String
  session_token : Option JwtToken
  expires_at : Option Int
  stored_at : Option Int
  deriving Repr, DecidableEq

/-- Submitted token dict (`token_data` in the Python sources): the keys the
code reads, each possibly absent. -/
structure TokenData where
  access_token : Option String := none
  refresh_token : Option String := none
  token_type : Option String := none
  scope : Option String := none
  expires_in : Option Int := none
  session_token : Option JwtToken := none
  deriving Repr, DecidableEq

/-- Python dict lookup `d.get(k)` on a mapping from user email to record,
modelled as an association list with unique keys. -/
def getEntry (m : List (String × Record)) (k : String) : Option Record :=
  match m with
  | [] => none
  | (k1, v) :: rest => if k1 = k then some v else getEntry rest k

/-- Python dict update `d[k] = v`: replaces the binding in place when the key
is present, otherwise appends it. -/
def setEntry (m : List (String × Record)) (k : String) (v : Record) : List (String × Record) :=
  match m with
  | [] => [(k, v)]
  | (k1, v1) :: rest => if k1 = k then (k1, v) :: rest else (k1, v1) :: setEntry rest k v

/-- Python dict removal `d.pop(k, None)` / `del d[k]`: drops the binding for
the key when present. -/
def delEntry (m : List (String × Record)) (k : String) : List (String × Record) :=
  match m with
  | [] => []
  | (k1, v1) :: rest => if k1 = k then rest else (k1, v1) :: delEntry rest k

/-- Record written by `store_token` (both storages build this same dict):
expiry is `now` plus the submitted `expires_in` (default 3600 s), token type
defaults to `"Bearer"`, and no `session_token` key is written. -/
def mkStoredRecord (now : Int) (token_data : TokenData) : Record :=
  { access_token := token_data.access_token
    refresh_token := token_data.refresh_token
    token_type := token_data.token_type.getD "Bearer"
    scope := token_data.scope
    session_token := none
    expires_at := some (now + token_data.expires_in.getD 3600)
    stored_at := some now }

namespace TokenStorage

/-- In-memory state of `TokenStorage` (`app/utils/token_storage.py`): the
`_tokens` dict. -/
abbrev Cache := List (String × Record)

/-- Model of `TokenStorage.store_token` (lines 15-29). -/
def store_token (now : Int) (tokens : Cache) (user_email : String)
    (token_data : TokenData) : Cache :=
  setEntry tokens user_email (mkStoredRecord now token_data)

/-- Model of `TokenStorage.get_token` (lines 31-34). -/
def get_token (tokens : Cache) (user_email : String) : Option Record :=
  getEntry tokens user_email

/-- Model of `TokenStorage.is_token_valid` (lines 36-47): absent record means
invalid; a present `expires_at` invalidates the token once `now` is past
`expires_at` minus the 5-minute (300 s) buffer; a record with no `expires_at`
key (or `None`) skips the check and counts as valid. -/
def is_token_valid (now : Int) (tokens : Cache) (user_email : String) : Bool :=
  match get_token tokens user_email with
  | none => false
  | some token_data =>
    match token_data.expires_at with
    | none => true
    | some expires_at => if now > expires_at - 300 then false else true

/-- Model of `TokenStorage.remove_token` (lines 49-52): `pop` with default,
never raising. -/
def remove_token (tokens : Cache) (user_email : String) : Cache :=
  delEntry tokens user_email

end TokenStorage

/-- Abstraction of the text produced by `datetime.isoformat()` and consumed by
`datetime.fromisoformat()` in `app/utils/file_token_storage.py`.  An `iso`
value is the ISO-8601 rendering of a timestamp, carried as a sign and the
decimal digits of its magnitude on the abstract clock; `garbage` stands for
any text that `datetime.fromisoformat` rejects with a `ValueError`. -/
inductive IsoText where
  | iso (neg : Bool) (digits : List Nat)
  | garbage
  deriving Repr, DecidableEq

/-- Model of `datetime.isoformat()`: renders the timestamp as ISO text. -/
def isoformat (t : Int) : IsoText :=
  .iso (decide (t < 0)) (Nat.digits 10 t.natAbs)

/-- Model of `datetime.fromisoformat()`: parses well-formed ISO text back to
the timestamp and fails (Python: raises `ValueError`) on anything else. -/
def fromisoformat : IsoText → Option Int
  | .iso neg ds =>
    if ds.all (· < 10) then
      some (if neg then -(Nat.ofDigits 10 ds : Int) else (Nat.ofDigits 10 ds : Int))
    else none
  | .garbage => none

/-- Serialized form of a `Record` as it sits in the JSON file: the same keys,
with the two timestamp fields rendered as ISO text. -/
structure SerRecord where
  access_token : Option String
  refresh_token : Option String
  token_type : String
  scope : Option String
  session_token : Option JwtToken
  expires_at : Option IsoText
  stored_at : Option IsoText
  deriving Repr, DecidableEq

/-- Content of the backing file of `FileTokenStorage`: absent, not valid JSON
(`json.load` raises `JSONDecodeError`), or a parsed JSON object mapping user
emails to serialized records. -/
inductive FileContent where
  | missing
  | invalidJson
  | json (entries : List (String × SerRecord))
  deriving Repr, DecidableEq

/-- Exceptions that `FileTokenStorage._load_from_file` does not catch. -/
inductive LoadError where
  | valueError
  deriving Repr, DecidableEq

/-- Serialization of one record in `FileTokenStorage._save_to_file` (lines
46-56): copy the dict and render each present timestamp with `isoformat`. -/
def serializeRecord (r : Record) : SerRecord :=
  { access_token := r.access_token
    refresh_token := r.refresh_token
    token_type := r.token_type
    scope := r.scope
    session_token := r.session_token
    expires_at := r.expires_at.map isoformat
    stored_at := r.stored_at.map isoformat }

/-- Timestamp conversion in `FileTokenStorage._load_from_file` (lines 33-38):
a present key is parsed with `fromisoformat` (whose failure is an uncaught
`ValueError`), an absent key stays absent. -/
def parseTimeField : Option IsoText → Option (Option Int)
  | none => some none
  | some txt => (fromisoformat txt).map some

/-- Deserialization of one record in `_load_from_file`: parse both timestamp
fields, propagating a parse failure. -/
def parseRecord (s : SerRecord) : Option Record :=
  match parseTimeField s.expires_at, parseTimeField s.stored_at with
  | some e, some st =>
    some { access_token := s.access_token
           refresh_token := s.refresh_token
           token_type := s.token_type
           scope := s.scope
           session_token := s.session_token
           expires_at := e
           stored_at := st }
  | _, _ => none

/-- Entry loop of `_load_from_file` over the parsed JSON object: the first
record whose timestamps fail to parse raises `ValueError` out of the
constructor. -/
def loadEntries : List (String × SerRecord) → Except LoadError (List (String × Record))
  | [] => .ok []
  | (k, s) :: rest =>
    match parseRecord s with
    | none => .error .valueError
    | some r => (loadEntries rest).map (fun tail => (k, r) :: tail)

/-- Model of `FileTokenStorage._load_from_file` (lines 22-44): a missing file
yields the empty mapping; `json.JSONDecodeError` (and `FileNotFoundError`,
`KeyError`) are caught and yield the empty mapping; a `ValueError` raised by
`datetime.fromisoformat` on a record's timestamp text is not caught and
escapes. -/
def load_from_file : FileContent → Except LoadError (List (String × Record))
  | .missing => .ok []
  | .invalidJson => .ok []
  | .json entries => loadEntries entries

namespace FileTokenStorage

/-- State of a `FileTokenStorage` (`app/utils/file_token_storage.py`): the
`_memory_cache` dict together with the backing file's content. -/
structure State where
  cache : List (String × Record)
  file : FileContent
  deriving Repr, DecidableEq

/-- Model of the `FileTokenStorage` constructor (lines 16-20), which runs
`_load_from_file`: an uncaught `ValueError` aborts construction. -/
def mk (file : FileContent) : Except LoadError State :=
  (load_from_file file).map (fun cache => { cache := cache, file := file })

/-- Model of `FileTokenStorage._save_to_file` (lines 46-79): serialize the
whole cache and atomically replace the file with it. -/
def save_to_file (st : State) : State :=
  { st with file := .json (st.cache.map (fun p => (p.1, serializeRecord p.2))) }

/-- Model of `FileTokenStorage.store_token` (lines 81-98): same record
computation as the in-memory store, followed by `_save_to_file`. -/
def store_token (now : Int) (st : State) (user_email : String)
    (token_data : TokenData) : State :=
  save_to_file { st with cache := setEntry st.cache user_email (mkStoredRecord now token_data) }

/-- Model of `FileTokenStorage.get_token` (lines 100-103). -/
def get_token (st : State) (user_email : String) : Option Record :=
  getEntry st.cache user_email

/-- Model of `FileTokenStorage.is_token_valid` (lines 105-116), literally the
same check as the in-memory storage. -/
def is_token_valid (now : Int) (st : State) (user_email : String) : Bool :=
  match get_token st user_email with
  | none => false
  | some token_data =>
    match token_data.expires_at with
    | none => true
    | some expires_at => if now > expires_at - 300 then false else true

/-- Model of `FileTokenStorage.remove_token` (lines 118-123): only when the
key is present is the cache mutated and `_save_to_file` invoked; otherwise
nothing at all happens. -/
def remove_token (st : State) (user_email : String) : State :=
  if (getEntry st.cache user_email).isSome then
    save_to_file { st with cache := delEntry st.cache user_email }
  else st

end FileTokenStorage

/-- Outcome of `restore_user_sessions` (`app/utils/startup.py`): the live
token cache after the run and the two counters of the final log line
`"Session restoration complete: restored_count successful, failed_count failed"`. -/
structure RestoreResult where
  cache : TokenStorage.Cache
  restored : Nat
  failed : Nat
  deriving Repr, DecidableEq

/-- Loop body of `restore_user_sessions` (`app/utils/startup.py`, lines
43-84) over the list of persisted users.  The identity provider is the
oracle `provider`: `provider rt = some tok` models
`create_credentials_from_refresh_token(rt)` returning credentials whose
`.token` is `tok`, and `none` models it raising (provider rejected the
refresh token), which the per-user `except` catches and counts as failed.
A user with no stored record, or whose record's `refresh_token` is absent or
empty (Python falsiness), is skipped with `continue` before the `try` body
does any counted work: neither counter moves. -/
def restoreLoop (secret : String) (now : Int) (provider : String → Option String)
    (fileCache : List (String × Record)) :
    List String → TokenStorage.Cache → Nat → Nat → RestoreResult
  | [], cache, restored_count, failed_count =>
    { cache := cache, restored := restored_count, failed := failed_count }
  | user_email :: rest, cache, restored_count, failed_count =>
    match getEntry fileCache user_email with
    | none => restoreLoop secret now provider fileCache rest cache restored_count failed_count
    | some stored_data =>
      match stored_data.refresh_token with
      | none => restoreLoop secret now provider fileCache rest cache restored_count failed_count
      | some refresh_token =>
        if refresh_token = "" then
          restoreLoop secret now provider fileCache rest cache restored_count failed_count
        else
          match provider refresh_token with
          | none =>
            restoreLoop secret now provider fileCache rest cache restored_count (failed_count + 1)
          | some access_token =>
            let session_token := generate_session_token secret user_email now 3600
            let session_token_data : TokenData :=
              { access_token := some access_token
                refresh_token := some refresh_token
                token_type := some "Bearer"
                expires_in := some 3600
                scope := some "https://www.googleapis.com/auth/gmail.readonly"
                session_token := some session_token }
            restoreLoop secret now provider fileCache rest
              (TokenStorage.store_token now cache user_email session_token_data)
              (restored_count + 1) failed_count

/-- Model of `restore_user_sessions` (`app/utils/startup.py`, lines 15-89):
walk the persisted users in file order, starting from the current live token
cache and zeroed counters. -/
def restore_user_sessions (secret : String) (now : Int)
    (provider : String → Option String) (fileCache : List (String × Record))
    (liveCache : TokenStorage.Cache) : RestoreResult :=
  restoreLoop secret now provider fileCache (fileCache.map Prod.fst) liveCache 0 0

/-- Model of `validate_oauth_token` (`app/utils/validators.py`, lines 21-45):
a missing or falsy `access_token` is rejected as a missing required field,
then a present access token shorter than 20 characters is rejected as an
invalid format. -/
def validate_oauth_token (token_data : TokenData) : Bool × Option String :=
  if token_data.access_token = none ∨ token_data.access_token = some "" then
    (false, some "Missing required fields: access_token")
  else
    let access_token := token_data.access_token.getD ""
    if access_token.length < 20 then (false, some "Invalid access token format")
    else (true, none)

/-- Calls `add_user` makes against the identity provider over the network. -/
inductive ProviderCall where
  | createCredentials
  | validateCredentials
  deriving Repr, DecidableEq

/-- Account metadata returned by `GoogleAuthService.validate_credentials`
on success. -/
structure UserInfo where
  email : Option String
  messages_total : Nat
  threads_total : Nat
  deriving Repr, DecidableEq

/-- Responses of the `add_user` route (`app/api/endpoints.py`), tagged with
the HTTP status the route returns. -/
inductive AddUserOutcome where
  | noData
  | malformedToken (msg : String)
  | invalidCredentials (msg : String)
  | connectionFailed
  | noEmail
  | success (email : String)
  deriving Repr, DecidableEq

/-- Model of the `add_user` route (`app/api/endpoints.py`, lines 127-190).
The provider is abstracted by two oracles: `createCred` models
`GoogleAuthService.create_credentials_from_token` (raising `ValueError` on
failure) and `validateCred` models `validate_credentials`.  The second
component of the result is the trace of provider calls attempted, in order;
rejections earlier in the route leave it empty. -/
def add_user (now : Int) (createCred : TokenData → Except String Unit)
    (validateCred : Unit → Bool × Option UserInfo)
    (tokens : TokenStorage.Cache) (token_data : Option TokenData) :
    AddUserOutcome × List ProviderCall × TokenStorage.Cache :=
  match token_data with
  | none => (.noData, [], tokens)
  | some td =>
    match validate_oauth_token td with
    | (false, msg) => (.malformedToken (msg.getD ""), [], tokens)
    | (true, _) =>
      match createCred td with
      | .error e => (.invalidCredentials e, [.createCredentials], tokens)
      | .ok _ =>
        match validateCred () with
        | (false, _) => (.connectionFailed, [.createCredentials, .validateCredentials], tokens)
        | (true, info) =>
          match info.bind UserInfo.email with
          | none => (.noEmail, [.createCredentials, .validateCredentials], tokens)
          | some email =>
            (.success email, [.createCredentials, .validateCredentials],
              TokenStorage.store_token now tokens email td)

/-! Lemmas about the dict operations. -/

theorem getEntry_setEntry_self (m : List (String × Record)) (k : String) (v : Record) :
    getEntry (setEntry m k v) k = some v := by
  induction m with
  | nil => simp [setEntry, getEntry]
  | cons p rest ih =>
    obtain ⟨k1, v1⟩ := p
    by_cases h : k1 = k
    · simp [setEntry, getEntry, h]
    · simp [setEntry, getEntry, h, ih]

theorem getEntry_setEntry_ne (m : List (String × Record)) (k k1 : String) (v : Record)
    (h : k1 ≠ k) : getEntry (setEntry m k v) k1 = getEntry m k1 := by
  have h' : ¬k = k1 := fun hh => h hh.symm
  induction m with
  | nil => simp [setEntry, getEntry, h']
  | cons p rest ih =>
    obtain ⟨k2, v2⟩ := p
    by_cases h2 : k2 = k
    · subst h2
      simp [setEntry, getEntry, h']
    · simp [setEntry, getEntry, h2, ih]

theorem getEntry_eq_none_iff (m : List (String × Record)) (k : String) :
    getEntry m k = none ↔ k ∉ m.map Prod.fst := by
  induction m with
  | nil => simp [getEntry]
  | cons p rest ih =>
    obtain ⟨k1, v1⟩ := p
    by_cases h : k1 = k
    · subst h
      simp [getEntry]
    · have h' : ¬k = k1 := fun hh => h hh.symm
      simp [getEntry, h, h', ih]

theorem delEntry_eq_of_getEntry_none (m : List (String × Record)) (k : String)
    (h : getEntry m k = none) : delEntry m k = m := by
  induction m with
  | nil => rfl
  | cons p rest ih =>
    obtain ⟨k1, v1⟩ := p
    by_cases h1 : k1 = k
    · simp [getEntry, h1] at h
    · simp [getEntry, h1] at h
      simp [delEntry, h1, ih h]

theorem getEntry_delEntry_self (m : List (String × Record)) (k : String)
    (h : (m.map Prod.fst).Nodup) : getEntry (delEntry m k) k = none := by
  induction m with
  | nil => rfl
  | cons p rest ih =>
    obtain ⟨k1, v1⟩ := p
    simp only [List.map_cons, List.nodup_cons] at h
    by_cases h1 : k1 = k
    · subst h1
      simpa [delEntry, getEntry_eq_none_iff] using h.1
    · simp [delEntry, h1, getEntry, ih h.2]

/-- Claim C2: for every well-formed token submission with a non-empty access
token, `store_token` then `get_token` on the same storage — in-memory
`TokenStorage` or `FileTokenStorage` — returns a record whose access and
refresh token fields equal the input's, and whose `expires_at` equals the
record's `stored_at` plus the submitted `expires_in` (default 3600 s). -/
theorem store_then_get_returns_input (now : Int) (tokens : TokenStorage.Cache)
    (st : FileTokenStorage.State) (u : String) (td : TokenData) (a : String)
    (h1 : td.access_token = some a) (h2 : a ≠ "") :
    ∃ r : Record,
      TokenStorage.get_token (TokenStorage.store_token now tokens u td) u = some r ∧
      FileTokenStorage.get_token (FileTokenStorage.store_token now st u td) u = some r ∧
      r.access_token = td.access_token ∧ r.refresh_token = td.refresh_token ∧
      r.stored_at = some now ∧
      r.expires_at = some (now + td.expires_in.getD 3600) := by
  refine ⟨mkStoredRecord now td, ?_, ?_, rfl, rfl, rfl, rfl⟩
  · exact getEntry_setEntry_self tokens u (mkStoredRecord now td)
  · simpa [FileTokenStorage.get_token, FileTokenStorage.store_token,
      FileTokenStorage.save_to_file] using
      getEntry_setEntry_self st.cache u (mkStoredRecord now td)

/-- Witness for C2 at a concrete submission. -/
theorem store_then_get_returns_input_check :
    ∃ r : Record,
      TokenStorage.get_token
        (TokenStorage.store_token 100 [] "u@example.com"
          { access_token := some "aaaaaaaaaaaaaaaaaaaaaaaa", expires_in := some 50 })
        "u@example.com" = some r ∧
      FileTokenStorage.get_token
        (FileTokenStorage.store_token 100 { cache := [], file := .missing } "u@example.com"
          { access_token := some "aaaaaaaaaaaaaaaaaaaaaaaa", expires_in := some 50 })
        "u@example.com" = some r ∧
      r.access_token = some "aaaaaaaaaaaaaaaaaaaaaaaa" ∧ r.refresh_token = none ∧
      r.stored_at = some 100 ∧ r.expires_at = some 150 := by
  simpa using store_then_get_returns_input 100 [] { cache := [], file := .missing }
    "u@example.com" { access_token := some "aaaaaaaaaaaaaaaaaaaaaaaa", expires_in := some 50 }
    "aaaaaaaaaaaaaaaaaaaaaaaa" rfl (by decide)

/-- Claim C5: `is_token_valid` returns `false` when no record is stored for
the identity, returns `false` when the stored record's `expires_at` lies less
than 5 minutes (300 s) after the current time, and returns `true` when it lies
more than 5 minutes in the future — on both storages. -/
theorem is_token_valid_five_minute_buffer (now : Int) (tokens : TokenStorage.Cache)
    (st : FileTokenStorage.State) (u : String) :
    (TokenStorage.get_token tokens u = none →
      TokenStorage.is_token_valid now tokens u = false) ∧
    (FileTokenStorage.get_token st u = none →
      FileTokenStorage.is_token_valid now st u = false) ∧
    (∀ r e, TokenStorage.get_token tokens u = some r → r.expires_at = some e →
      e < now + 300 → TokenStorage.is_token_valid now tokens u = false) ∧
    (∀ r e, FileTokenStorage.get_token st u = some r → r.expires_at = some e →
      e < now + 300 → FileTokenStorage.is_token_valid now st u = false) ∧
    (∀ r e, TokenStorage.get_token tokens u = some r → r.expires_at = some e →
      now + 300 < e → TokenStorage.is_token_valid now tokens u = true) ∧
    (∀ r e, FileTokenStorage.get_token st u = some r → r.expires_at = some e →
      now + 300 < e → FileTokenStorage.is_token_valid now st u = true) := by
  refine ⟨fun h => ?_, fun h => ?_, fun r e h1 h2 h3 => ?_, fun r e h1 h2 h3 => ?_,
    fun r e h1 h2 h3 => ?_, fun r e h1 h2 h3 => ?_⟩
  · simp [TokenStorage.is_token_valid, h]
  · simp [FileTokenStorage.is_token_valid, h]
  · have hc : now > e - 300 := by omega
    simp only [TokenStorage.is_token_valid, h1, h2]
    rw [if_pos hc]
  · have hc : now > e - 300 := by omega
    simp only [FileTokenStorage.is_token_valid, h1, h2]
    rw [if_pos hc]
  · have hc : ¬now > e - 300 := by omega
    simp only [TokenStorage.is_token_valid, h1, h2]
    rw [if_neg hc]
  · have hc : ¬now > e - 300 := by omega
    simp only [FileTokenStorage.is_token_valid, h1, h2]
    rw [if_neg hc]

/-- Witness for C5: an absent identity, a record expiring 200 s from now and a
record expiring 400 s from now, on both storages. -/
theorem is_token_valid_five_minute_buffer_check :
    TokenStorage.is_token_valid 1000 [] "u" = false ∧
    FileTokenStorage.is_token_valid 1000 { cache := [], file := .missing } "u" = false ∧
    TokenStorage.is_token_valid 1000
      [("u", { access_token := none, refresh_token := none, token_type := "Bearer",
               scope := none, session_token := none, expires_at := some 1200,
               stored_at := none })] "u" = false ∧
    FileTokenStorage.is_token_valid 1000
      { cache := [("u", { access_token := none, refresh_token := none,
                          token_type := "Bearer", scope := none, session_token := none,
                          expires_at := some 1200, stored_at := none })],
        file := .missing } "u" = false ∧
    TokenStorage.is_token_valid 1000
      [("u", { access_token := none, refresh_token := none, token_type := "Bearer",
               scope := none, session_token := none, expires_at := some 1400,
               stored_at := none })] "u" = true ∧
    FileTokenStorage.is_token_valid 1000
      { cache := [("u", { access_token := none, refresh_token := none,
                          token_type := "Bearer", scope := none, session_token := none,
                          expires_at := some 1400, stored_at := none })],
        file := .missing } "u" = true := by
  refine ⟨(is_token_valid_five_minute_buffer 1000 [] { cache := [], file := .missing } "u").1 rfl,
    (is_token_valid_five_minute_buffer 1000 [] { cache := [], file := .missing } "u").2.1 rfl,
    ?_, ?_, ?_, ?_⟩
  · refine (is_token_valid_five_minute_buffer 1000
      [("u", { access_token := none, refresh_token := none, token_type := "Bearer",
               scope := none, session_token := none, expires_at := some 1200,
               stored_at := none })] { cache := [], file := .missing } "u").2.2.1 _ _ rfl rfl ?_
    omega
  · refine (is_token_valid_five_minute_buffer 1000 []
      { cache := [("u", { access_token := none, refresh_token := none,
                          token_type := "Bearer", scope := none, session_token := none,
                          expires_at := some 1200, stored_at := none })],
        file := .missing } "u").2.2.2.1 _ _ rfl rfl ?_
    omega
  · refine (is_token_valid_five_minute_buffer 1000
      [("u", { access_token := none, refresh_token := none, token_type := "Bearer",
               scope := none, session_token := none, expires_at := some 1400,
               stored_at := none })] { cache := [], file := .missing } "u").2.2.2.2.1 _ _ rfl rfl ?_
    omega
  · refine (is_token_valid_five_minute_buffer 1000 []
      { cache := [("u", { access_token := none, refresh_token := none,
                          token_type := "Bearer", scope := none, session_token := none,
                          expires_at := some 1400, stored_at := none })],
        file := .missing } "u").2.2.2.2.2 _ _ rfl rfl ?_
    omega

/-- Claim C10: a stored record whose `expires_at` key is absent (`None`) makes
`is_token_valid` return `true` regardless of the current time, on both
storages: no recorded expiry is treated as never expiring. -/
theorem no_expiry_treated_as_never_expiring (now : Int) (tokens : TokenStorage.Cache)
    (st : FileTokenStorage.State) (u : String) :
    (∀ r, TokenStorage.get_token tokens u = some r → r.expires_at = none →
      TokenStorage.is_token_valid now tokens u = true) ∧
    (∀ r, FileTokenStorage.get_token st u = some r → r.expires_at = none →
      FileTokenStorage.is_token_valid now st u = true) := by
  constructor
  · intro r h1 h2
    simp [TokenStorage.is_token_valid, h1, h2]
  · intro r h1 h2
    simp [FileTokenStorage.is_token_valid, h1, h2]

/-- Witness for C10 at a concrete record with no expiry, on both storages. -/
theorem no_expiry_treated_as_never_expiring_check :
    TokenStorage.is_token_valid 999999
      [("u", { access_token := some "a", refresh_token := none, token_type := "Bearer",
               scope := none, session_token := none, expires_at := none,
               stored_at := some 0 })] "u" = true ∧
    FileTokenStorage.is_token_valid 999999
      { cache := [("u", { access_token := some "a", refresh_token := none,
                          token_type := "Bearer", scope := none, session_token := none,
                          expires_at := none, stored_at := some 0 })],
        file := .missing } "u" = true := by
  constructor
  · exact (no_expiry_treated_as_never_expiring 999999
      [("u", { access_token := some "a", refresh_token := none, token_type := "Bearer",
               scope := none, session_token := none, expires_at := none,
               stored_at := some 0 })] { cache := [], file := .missing } "u").1 _ rfl rfl
  · exact (no_expiry_treated_as_never_expiring 999999 []
      { cache := [("u", { access_token := some "a", refresh_token := none,
                          token_type := "Bearer", scope := none, session_token := none,
                          expires_at := none, stored_at := some 0 })],
        file := .missing } "u").2 _ rfl rfl

/-- Claim C9: removing an identity that is not in the mapping succeeds, leaves
everything unchanged — for the file-based store the whole state, backing file
included, is untouched, so no write happens — and `remove_token` is
idempotent on dict states (unique keys). -/
theorem remove_token_absent_noop_and_idempotent (tokens : TokenStorage.Cache)
    (st : FileTokenStorage.State) (u : String) :
    (TokenStorage.get_token tokens u = none →
      TokenStorage.remove_token tokens u = tokens) ∧
    (FileTokenStorage.get_token st u = none →
      FileTokenStorage.remove_token st u = st) ∧
    ((tokens.map Prod.fst).Nodup →
      TokenStorage.remove_token (TokenStorage.remove_token tokens u) u =
        TokenStorage.remove_token tokens u) ∧
    ((st.cache.map Prod.fst).Nodup →
      FileTokenStorage.remove_token (FileTokenStorage.remove_token st u) u =
        FileTokenStorage.remove_token st u) := by
  refine ⟨fun h => ?_, fun h => ?_, fun h => ?_, fun h => ?_⟩
  · exact delEntry_eq_of_getEntry_none tokens u h
  · simp [FileTokenStorage.remove_token, FileTokenStorage.get_token] at h ⊢
    simp [h]
  · exact delEntry_eq_of_getEntry_none _ u (getEntry_delEntry_self tokens u h)
  · by_cases hs : (getEntry st.cache u).isSome
    · have h1 : FileTokenStorage.remove_token st u =
        FileTokenStorage.save_to_file { st with cache := delEntry st.cache u } := by
        simp [FileTokenStorage.remove_token, hs]
      have h2 : getEntry (delEntry st.cache u) u = none := getEntry_delEntry_self st.cache u h
      rw [h1]
      simp [FileTokenStorage.remove_token, FileTokenStorage.save_to_file, h2]
    · have h1 : FileTokenStorage.remove_token st u = st := by
        simp [FileTokenStorage.remove_token, hs]
      rw [h1]
      exact h1

/-- Witness for C9: removing an absent identity from a one-entry store, twice,
on both storages. -/
theorem remove_token_absent_noop_and_idempotent_check :
    TokenStorage.remove_token
      [("a", { access_token := none, refresh_token := none, token_type := "Bearer",
               scope := none, session_token := none, expires_at := none,
               stored_at := none })] "b" =
      [("a", { access_token := none, refresh_token := none, token_type := "Bearer",
               scope := none, session_token := none, expires_at := none,
               stored_at := none })] ∧
    FileTokenStorage.remove_token
      { cache := [("a", { access_token := none, refresh_token := none,
                          token_type := "Bearer", scope := none, session_token := none,
                          expires_at := none, stored_at := none })],
        file := .missing } "b" =
      { cache := [("a", { access_token := none, refresh_token := none,
                          token_type := "Bearer", scope := none, session_token := none,
                          expires_at := none, stored_at := none })],
        file := .missing } ∧
    TokenStorage.remove_token
      (TokenStorage.remove_token
        [("a", { access_token := none, refresh_token := none, token_type := "Bearer",
                 scope := none, session_token := none, expires_at := none,
                 stored_at := none })] "a") "a" =
      TokenStorage.remove_token
        [("a", { access_token := none, refresh_token := none, token_type := "Bearer",
                 scope := none, session_token := none, expires_at := none,
                 stored_at := none })] "a" ∧
    FileTokenStorage.remove_token
      (FileTokenStorage.remove_token
        { cache := [("a", { access_token := none, refresh_token := none,
                            token_type := "Bearer", scope := none, session_token := none,
                            expires_at := none, stored_at := none })],
          file := .missing } "a") "a" =
      FileTokenStorage.remove_token
        { cache := [("a", { access_token := none, refresh_token := none,
                            token_type := "Bearer", scope := none, session_token := none,
                            expires_at := none, stored_at := none })],
          file := .missing } "a" := by
  refine ⟨?_, ?_, ?_, ?_⟩
  · exact (remove_token_absent_noop_and_idempotent
      [("a", { access_token := none, refresh_token := none, token_type := "Bearer",
               scope := none, session_token := none, expires_at := none,
               stored_at := none })] { cache := [], file := .missing } "b").1 rfl
  · exact (remove_token_absent_noop_and_idempotent []
      { cache := [("a", { access_token := none, refresh_token := none,
                          token_type := "Bearer", scope := none, session_token := none,
                          expires_at := none, stored_at := none })],
        file := .missing } "b").2.1 rfl
  · exact (remove_token_absent_noop_and_idempotent
      [("a", { access_token := none, refresh_token := none, token_type := "Bearer",
               scope := none, session_token := none, expires_at := none,
               stored_at := none })] { cache := [], file := .missing } "a").2.2.1
      (by simp)
  · exact (remove_token_absent_noop_and_idempotent []
      { cache := [("a", { access_token := none, refresh_token := none,
                          token_type := "Bearer", scope := none, session_token := none,
                          expires_at := none, stored_at := none })],
        file := .missing } "a").2.2.2 (by simp)

/-- Claim C3: `validate_session_token` returns the uniform `(False, None)`
without raising whenever the token's signature does not verify under the
server secret, or the embedded expiry is not in the future (PyJWT treats
`exp <= now` as expired, so a token minted with `ttl = 0` is invalid at the
very instant of issuance), or the `type` claim is not `"session"`. -/
theorem validate_session_token_uniform_invalid (secret : String) (now : Int)
    (tok : JwtToken) (u : String)
    (h : tok.sig ≠ jwtSign secret tok.payload ∨ tok.payload.exp ≤ now ∨
      tok.payload.type ≠ "session") :
    validate_session_token secret now tok = (false, none) ∧
    validate_session_token secret now (generate_session_token secret u now 0) =
      (false, none) := by
  constructor
  · unfold validate_session_token jwtDecode
    rcases h with h | h | h
    · rw [if_pos h]
    · by_cases hs : tok.sig ≠ jwtSign secret tok.payload
      · rw [if_pos hs]
      · rw [if_neg hs, if_pos h]
    · by_cases hs : tok.sig ≠ jwtSign secret tok.payload
      · rw [if_pos hs]
      · rw [if_neg hs]
        by_cases he : tok.payload.exp ≤ now
        · rw [if_pos he]
        · rw [if_neg he]
          simp [h]
  · unfold validate_session_token jwtDecode generate_session_token
    simp

/-- Witness for C3: a concrete tampered-signature token, which is also
expired and carries the right type tag, together with the ttl-0 case. -/
theorem validate_session_token_uniform_invalid_check :
    validate_session_token "server-secret" 50
      { payload := { user_email := "u@example.com", iat := 0, exp := 10, type := "session" },
        sig := 0 } = (false, none) ∧
    validate_session_token "server-secret" 50
      (generate_session_token "server-secret" "u@example.com" 50 0) = (false, none) :=
  validate_session_token_uniform_invalid "server-secret" 50
    { payload := { user_email := "u@example.com", iat := 0, exp := 10, type := "session" },
      sig := 0 } "u@example.com" (Or.inr (Or.inl (by norm_num)))

/-- Claim C4 (amended part): loading the durable store's backing file never
fails when the file is missing or when its content is not valid JSON — both
fall back to the empty mapping — and, more generally, the
`FileTokenStorage` constructor succeeds on these contents. -/
theorem load_from_file_missing_or_corrupt_empty :
    load_from_file .missing = .ok [] ∧ load_from_file .invalidJson = .ok [] ∧
    FileTokenStorage.mk .missing = .ok { cache := [], file := .missing } ∧
    FileTokenStorage.mk .invalidJson = .ok { cache := [], file := .invalidJson } :=
  ⟨rfl, rfl, rfl, rfl⟩

/-- Counterexample to C4 as stated: a backing file that is valid JSON but
whose record carries a timestamp string `datetime.fromisoformat` rejects makes
the constructor raise `ValueError` instead of falling back to an empty
mapping (`except` on line 42 of `file_token_storage.py` catches only
`JSONDecodeError`, `FileNotFoundError` and `KeyError`). -/
theorem load_from_file_bad_timestamp_raises :
    FileTokenStorage.mk
      (.json [("u@example.com",
        { access_token := some "a", refresh_token := some "r", token_type := "Bearer",
          scope := none, session_token := none, expires_at := some .garbage,
          stored_at := none })]) = .error .valueError := rfl

theorem fromisoformat_isoformat (t : Int) : fromisoformat (isoformat t) = some t := by
  simp only [isoformat, fromisoformat]
  have hall : (Nat.digits 10 t.natAbs).all (fun d => decide (d < 10)) = true := by
    rw [List.all_eq_true]
    intro d hd
    simpa using Nat.digits_lt_base (by norm_num) hd
  have h10 : ((10 : ℕ) : ℤ) = (10 : ℤ) := by norm_num
  rw [if_pos hall, ← h10, ← Nat.coe_int_ofDigits, Nat.ofDigits_digits]
  by_cases h : t < 0
  · rw [if_pos (by simpa using h)]
    simp only [Option.some.injEq]
    omega
  · rw [if_neg (by simpa using h)]
    simp only [Option.some.injEq]
    omega

theorem parseRecord_serializeRecord (r : Record) :
    parseRecord (serializeRecord r) = some r := by
  obtain ⟨a, rt, tt, sc, sess, e, st⟩ := r
  cases e <;> cases st <;>
    simp [parseRecord, serializeRecord, parseTimeField, fromisoformat_isoformat]

theorem loadEntries_serialize (l : List (String × Record)) :
    loadEntries (l.map (fun p => (p.1, serializeRecord p.2))) = .ok l := by
  induction l with
  | nil => rfl
  | cons p rest ih =>
    simp [loadEntries, parseRecord_serializeRecord, ih, Except.map]

/-- Claim C7: for every in-memory mapping held by a `FileTokenStorage`, after
`_save_to_file` a freshly constructed instance on the same path loads exactly
the same mapping: same identities in the same order, each record equal field
for field, the two timestamps surviving the ISO-8601 render/parse round
trip. -/
theorem save_then_fresh_load_roundtrip (st : FileTokenStorage.State) :
    FileTokenStorage.mk (FileTokenStorage.save_to_file st).file =
      .ok { cache := st.cache, file := (FileTokenStorage.save_to_file st).file } := by
  simp [FileTokenStorage.mk, FileTokenStorage.save_to_file, load_from_file,
    loadEntries_serialize, Except.map]

/-- Claim C8: a submitted credential whose access token is shorter than 20
characters is rejected by `validate_oauth_token`, and `add_user` returns this
malformed-input rejection with an empty provider-call trace: neither
credential construction nor credential validation is attempted, the live
cache is untouched. -/
theorem short_access_token_rejected_before_network (now : Int)
    (createCred : TokenData → Except String Unit)
    (validateCred : Unit → Bool × Option UserInfo)
    (tokens : TokenStorage.Cache) (td : TokenData) (a : String)
    (h1 : td.access_token = some a) (h2 : a.length < 20) :
    (validate_oauth_token td).1 = false ∧
    ∃ msg, add_user now createCred validateCred tokens (some td) =
      (.malformedToken msg, [], tokens) := by
  by_cases he : a = ""
  · subst he
    have hv : validate_oauth_token td = (false, some "Missing required fields: access_token") := by
      rw [validate_oauth_token, if_pos (Or.inr h1)]
    refine ⟨by rw [hv], "Missing required fields: access_token", ?_⟩
    rw [add_user, hv]
    rfl
  · have hne : ¬(td.access_token = none ∨ td.access_token = some "") := by
      rintro (hc | hc) <;> rw [h1] at hc
      · exact Option.noConfusion hc
      · exact he (Option.some.injEq _ _ ▸ hc)
    have hlen : (td.access_token.getD "").length < 20 := by
      rw [h1]
      simpa using h2
    have hv : validate_oauth_token td = (false, some "Invalid access token format") := by
      rw [validate_oauth_token, if_neg hne]
      rw [if_pos hlen]
    refine ⟨by rw [hv], "Invalid access token format", ?_⟩
    rw [add_user, hv]
    rfl

/-- Witness for C8 at the spec's concrete submission, the 5-character access
token `"short"`. -/
theorem short_access_token_rejected_before_network_check :
    (validate_oauth_token { access_token := some "short" }).1 = false ∧
    ∃ msg, add_user 0 (fun _ => .ok ()) (fun _ => (true, none)) []
      (some { access_token := some "short" }) = (.malformedToken msg, [], []) :=
  short_access_token_rejected_before_network 0 (fun _ => .ok ()) (fun _ => (true, none))
    [] { access_token := some "short" } "short" rfl (by decide)

theorem restoreLoop_preserves_other (secret : String) (now : Int)
    (provider : String → Option String) (fileCache : List (String × Record))
    (us : List String) (u : String) :
    ∀ cache r f, u ∉ us →
      getEntry (restoreLoop secret now provider fileCache us cache r f).cache u =
        getEntry cache u := by
  induction us with
  | nil => intro cache r f _; rfl
  | cons u1 rest ih =>
    intro cache r f h
    have hne : u ≠ u1 := fun hh => h (hh ▸ List.mem_cons_self u1 rest)
    have hnr : u ∉ rest := fun hh => h (List.mem_cons_of_mem u1 hh)
    simp only [restoreLoop]
    cases hg : getEntry fileCache u1 with
    | none =>
      simp only [hg]
      exact ih cache r f hnr
    | some stored =>
      simp only [hg]
      cases hr : stored.refresh_token with
      | none =>
        simp only [hr]
        exact ih cache r f hnr
      | some rt =>
        simp only [hr]
        by_cases hre : rt = ""
        · rw [if_pos hre]
          exact ih cache r f hnr
        · rw [if_neg hre]
          cases hp : provider rt with
          | none =>
            simp only [hp]
            exact ih cache r (f + 1) hnr
          | some tok =>
            simp only [hp]
            refine (ih _ _ _ hnr).trans ?_
            exact getEntry_setEntry_ne cache u1 u _ hne

/-- Counterexample to C1 as stated: with 3 persisted identities — `u1` with no
refresh token, `u2` whose refresh token the provider rejects, `u3` restorable
— the run repopulates exactly 1 identity but reports 1 failure and 1 success,
not 2 failures: the missing-refresh-token skip on line 54 of
`app/utils/startup.py` is a bare `continue` that increments neither
counter. -/
theorem restore_three_users_reports_one_failure :
    (restore_user_sessions "secret" 0
      (fun rt => if rt = "r3" then some "fresh-access-3" else none)
      [("u1", { access_token := some "a1", refresh_token := none, token_type := "Bearer",
                scope := none, session_token := none, expires_at := none,
                stored_at := none }),
       ("u2", { access_token := some "a2", refresh_token := some "r2",
                token_type := "Bearer", scope := none, session_token := none,
                expires_at := none, stored_at := none }),
       ("u3", { access_token := some "a3", refresh_token := some "r3",
                token_type := "Bearer", scope := none, session_token := none,
                expires_at := none, stored_at := none })] []).restored = 1 ∧
    (restore_user_sessions "secret" 0
      (fun rt => if rt = "r3" then some "fresh-access-3" else none)
      [("u1", { access_token := some "a1", refresh_token := none, token_type := "Bearer",
                scope := none, session_token := none, expires_at := none,
                stored_at := none }),
       ("u2", { access_token := some "a2", refresh_token := some "r2",
                token_type := "Bearer", scope := none, session_token := none,
                expires_at := none, stored_at := none }),
       ("u3", { access_token := some "a3", refresh_token := some "r3",
                token_type := "Bearer", scope := none, session_token := none,
                expires_at := none, stored_at := none })] []).failed = 1 ∧
    ¬ ((restore_user_sessions "secret" 0
      (fun rt => if rt = "r3" then some "fresh-access-3" else none)
      [("u1", { access_token := some "a1", refresh_token := none, token_type := "Bearer",
                scope := none, session_token := none, expires_at := none,
                stored_at := none }),
       ("u2", { access_token := some "a2", refresh_token := some "r2",
                token_type := "Bearer", scope := none, session_token := none,
                expires_at := none, stored_at := none }),
       ("u3", { access_token := some "a3", refresh_token := some "r3",
                token_type := "Bearer", scope := none, session_token := none,
                expires_at := none, stored_at := none })] []).failed = 2) ∧
    (restore_user_sessions "secret" 0
      (fun rt => if rt = "r3" then some "fresh-access-3" else none)
      [("u1", { access_token := some "a1", refresh_token := none, token_type := "Bearer",
                scope := none, session_token := none, expires_at := none,
                stored_at := none }),
       ("u2", { access_token := some "a2", refresh_token := some "r2",
                token_type := "Bearer", scope := none, session_token := none,
                expires_at := none, stored_at := none }),
       ("u3", { access_token := some "a3", refresh_token := some "r3",
                token_type := "Bearer", scope := none, session_token := none,
                expires_at := none, stored_at := none })] []).cache.map Prod.fst =
      ["u3"] := by
  exact ⟨rfl, rfl, by decide, rfl⟩

/-- Claim C1 as amended: a persisted identity that lacks a refresh token is
skipped without being counted at all — neither as a failure nor as a success —
and the spec's 3-identity scenario therefore ends with exactly 1 identity
repopulated in the live cache and a reported count of 1 failure, 1
success. -/
theorem restore_skips_missing_refresh_without_counting (secret : String) (now : Int)
    (provider : String → Option String) (fileCache : List (String × Record))
    (u : String) (rest : List String) (cache : TokenStorage.Cache) (r f : Nat)
    (stored : Record) (h1 : getEntry fileCache u = some stored)
    (h2 : stored.refresh_token = none) :
    restoreLoop secret now provider fileCache (u :: rest) cache r f =
      restoreLoop secret now provider fileCache rest cache r f ∧
    (restore_user_sessions "secret" 0
      (fun rt => if rt = "r3" then some "fresh-access-3" else none)
      [("u1", { access_token := some "a1", refresh_token := none, token_type := "Bearer",
                scope := none, session_token := none, expires_at := none,
                stored_at := none }),
       ("u2", { access_token := some "a2", refresh_token := some "r2",
                token_type := "Bearer", scope := none, session_token := none,
                expires_at := none, stored_at := none }),
       ("u3", { access_token := some "a3", refresh_token := some "r3",
                token_type := "Bearer", scope := none, session_token := none,
                expires_at := none, stored_at := none })] []).restored = 1 ∧
    (restore_user_sessions "secret" 0
      (fun rt => if rt = "r3" then some "fresh-access-3" else none)
      [("u1", { access_token := some "a1", refresh_token := none, token_type := "Bearer",
                scope := none, session_token := none, expires_at := none,
                stored_at := none }),
       ("u2", { access_token := some "a2", refresh_token := some "r2",
                token_type := "Bearer", scope := none, session_token := none,
                expires_at := none, stored_at := none }),
       ("u3", { access_token := some "a3", refresh_token := some "r3",
                token_type := "Bearer", scope := none, session_token := none,
                expires_at := none, stored_at := none })] []).failed = 1 := by
  refine ⟨?_, rfl, rfl⟩
  simp only [restoreLoop, h1, h2]

/-- Witness for the amended C1 at a concrete one-identity run. -/
theorem restore_skips_missing_refresh_without_counting_check :
    restoreLoop "s" 0 (fun _ => none)
      [("x", { access_token := some "a", refresh_token := none, token_type := "Bearer",
               scope := none, session_token := none, expires_at := none,
               stored_at := none })] ["x"] [] 0 0 =
      restoreLoop "s" 0 (fun _ => none)
        [("x", { access_token := some "a", refresh_token := none, token_type := "Bearer",
                 scope := none, session_token := none, expires_at := none,
                 stored_at := none })] [] [] 0 0 ∧
    (restore_user_sessions "secret" 0
      (fun rt => if rt = "r3" then some "fresh-access-3" else none)
      [("u1", { access_token := some "a1", refresh_token := none, token_type := "Bearer",
                scope := none, session_token := none, expires_at := none,
                stored_at := none }),
       ("u2", { access_token := some "a2", refresh_token := some "r2",
                token_type := "Bearer", scope := none, session_token := none,
                expires_at := none, stored_at := none }),
       ("u3", { access_token := some "a3", refresh_token := some "r3",
                token_type := "Bearer", scope := none, session_token := none,
                expires_at := none, stored_at := none })] []).restored = 1 ∧
    (restore_user_sessions "secret" 0
      (fun rt => if rt = "r3" then some "fresh-access-3" else none)
      [("u1", { access_token := some "a1", refresh_token := none, token_type := "Bearer",
                scope := none, session_token := none, expires_at := none,
                stored_at := none }),
       ("u2", { access_token := some "a2", refresh_token := some "r2",
                token_type := "Bearer", scope := none, session_token := none,
                expires_at := none, stored_at := none }),
       ("u3", { access_token := some "a3", refresh_token := some "r3",
                token_type := "Bearer", scope := none, session_token := none,
                expires_at := none, stored_at := none })] []).failed = 1 :=
  restore_skips_missing_refresh_without_counting "s" 0 (fun _ => none)
    [("x", { access_token := some "a", refresh_token := none, token_type := "Bearer",
             scope := none, session_token := none, expires_at := none,
             stored_at := none })] "x" [] [] 0 0
    { access_token := some "a", refresh_token := none, token_type := "Bearer",
      scope := none, session_token := none, expires_at := none, stored_at := none }
    rfl rfl

/-- Claim C6 as amended: an identity the orchestrator restores successfully is
afterwards retrievable from the live token cache with the freshly refreshed
access token, the same persisted refresh token, and the fixed Gmail read-only
scope string — but with no session token: `startup.py` puts the newly minted
session token into the dict it passes to `store_token`, and
`TokenStorage.store_token` writes only its six fixed keys, dropping it. -/
theorem restored_identity_record_contents (secret : String) (now : Int)
    (provider : String → Option String) (fileCache : List (String × Record))
    (u : String) (rest : List String) (cache : TokenStorage.Cache) (r f : Nat)
    (stored : Record) (rt tok : String)
    (h1 : getEntry fileCache u = some stored) (h2 : stored.refresh_token = some rt)
    (h3 : rt ≠ "") (h4 : provider rt = some tok) (h5 : u ∉ rest) :
    TokenStorage.get_token
      (restoreLoop secret now provider fileCache (u :: rest) cache r f).cache u =
      some { access_token := some tok
             refresh_token := some rt
             token_type := "Bearer"
             scope := some "https://www.googleapis.com/auth/gmail.readonly"
             session_token := none
             expires_at := some (now + 3600)
             stored_at := some now } := by
  simp only [restoreLoop, h1, h2, if_neg h3, h4]
  rw [TokenStorage.get_token,
    restoreLoop_preserves_other secret now provider fileCache rest u _ _ _ h5,
    TokenStorage.store_token, getEntry_setEntry_self]
  rfl

/-- Witness for the amended C6 at a concrete one-identity restoration. -/
theorem restored_identity_record_contents_check :
    TokenStorage.get_token
      (restoreLoop "s" 7 (fun _ => some "new-access") [("u",
        { access_token := some "old", refresh_token := some "r", token_type := "Bearer",
          scope := none, session_token := none, expires_at := none,
          stored_at := none })] ["u"] [] 0 0).cache "u" =
      some { access_token := some "new-access"
             refresh_token := some "r"
             token_type := "Bearer"
             scope := some "https://www.googleapis.com/auth/gmail.readonly"
             session_token := none
             expires_at := some 3607
             stored_at := some 7 } := by
  have h := restored_identity_record_contents "s" 7 (fun _ => some "new-access")
    [("u", { access_token := some "old", refresh_token := some "r", token_type := "Bearer",
             scope := none, session_token := none, expires_at := none,
             stored_at := none })] "u" [] [] 0 0
    { access_token := some "old", refresh_token := some "r", token_type := "Bearer",
      scope := none, session_token := none, expires_at := none, stored_at := none }
    "r" "new-access" rfl rfl (by decide) rfl (by simp)
  simpa using h

/-- Counterexample to C6 as stated: after a successful one-identity
restoration, the record retrievable from the live cache has no
`session_token` key at all — in particular it does not contain the session
token minted during the run — because `TokenStorage.store_token` discards
every key outside its fixed schema. -/
theorem restored_record_lacks_minted_session_token :
    (TokenStorage.get_token
      (restore_user_sessions "s" 0 (fun _ => some "new-access") [("u",
        { access_token := some "old", refresh_token := some "r", token_type := "Bearer",
          scope := none, session_token := none, expires_at := none,
          stored_at := none })] []).cache "u").map Record.session_token = some none ∧
    ¬ ((TokenStorage.get_token
      (restore_user_sessions "s" 0 (fun _ => some "new-access") [("u",
        { access_token := some "old", refresh_token := some "r", token_type := "Bearer",
          scope := none, session_token := none, expires_at := none,
          stored_at := none })] []).cache "u").map Record.session_token =
      some (some (generate_session_token "s" "u" 0 3600))) := by
  exact ⟨rfl, by decide⟩

end Stay
